import Mathlib

/-!
Verification of the two-pass spam detection engine
(`src/utils/two_pass_detector.py`, class `TwoPassSpamDetector`).

The Python module is shallowly embedded below.  External libraries are
modelled at their observable interface:

* BeautifulSoup: a body string together with its parse is an `EmailBody`
  (raw string, the `href` values of `<a href>` tags, the `width`/`height`
  attributes of `<img>` tags, and the `get_text` plaintext).
* The OpenAI client plus `json.loads`: the outcome of one completion call
  followed by markdown-fence stripping and JSON parsing is an
  `Except String GptJson` — `Except.error msg` when the call raises or the
  content is not valid JSON (the code's single `except` clause), and
  `Except.ok j` when parsing yields the expected JSON object.
* Python floats are modelled exactly as rationals (`Rat`); a quotient of
  two machine integers `a / b` is written `mkRat a b` (its exact value).
-/

/-- Helper for `strHasSub`: does `pat` occur as a contiguous run in the list? -/
def hasSubAux (pat : List Char) : List Char → Bool
  | [] => List.isPrefixOf pat []
  | c :: cs => List.isPrefixOf pat (c :: cs) || hasSubAux pat cs

/-- Python's `pat in s` substring containment test on strings. -/
def strHasSub (s pat : String) : Bool :=
  hasSubAux pat.toList s.toList

/-- The JSON object shape the LLM is asked to return (`json.loads` result). -/
structure GptJson where
  is_spam : Bool
  confidence : Rat
  reason : String
  category : String
deriving DecidableEq

/-- The feature dict returned by `TwoPassSpamDetector.extract_features`. -/
structure FeatureRecord where
  url_count : Nat
  img_count : Nat
  unique_domains : Nat
  tracking_pixel_count : Nat
  html_text_ratio : Rat
  spam_keyword_count : Nat
  caps_ratio : Rat
  exclamation_count : Nat
  subject : String
  text_preview : String
deriving DecidableEq

/-- Outcome of one completion-call-plus-parse, as a function of the call's
inputs (`body`, `features`, `system_prompt`).  `Except.error msg` models the
API call raising, or `json.loads` failing, with error text `msg`. -/
abbrev ClientFun := String → FeatureRecord → String → Except String GptJson

/-- The attributes of one `<img>` tag that `extract_features` reads:
`img.get('width')` / `img.get('height')` (`none` = attribute absent). -/
structure ImgTag where
  width : Option String
  height : Option String
deriving DecidableEq

/-- A body string together with its BeautifulSoup parse: `raw` is the
original string (`len(body)`), `anchors` the `href` values of the
`<a href=...>` tags found by `soup.find_all('a', href=True)`, `imgs` the
`<img>` tags found by `soup.find_all('img')`, and `text` the plaintext
`soup.get_text(separator=' ', strip=True)`. -/
structure EmailBody where
  raw : String
  anchors : List String
  imgs : List ImgTag
  text : String
deriving DecidableEq

/-- Python's `str.lower()` on one character: exact on ASCII `A`–`Z` and on
the Latin-1 uppercase letters `À`–`Þ` (excluding `×`), which map to their
lowercase forms 32 code points up, and on the Kelvin sign U+212A, which
lowers to `k`.  Cased letters of other scripts are left unchanged; no such
letter lowercases into the Latin alphabets of this module's keyword list and
rule patterns, and the one remaining special case, `İ` U+0130 (whose Python
lowercase is `i` followed by a combining dot), can complete no keyword or
pattern occurrence because none of them ends in `i` and the combining dot
interrupts every longer match — so every substring test and keyword count
below agrees with the source on all inputs. -/
def pyLowerChar (c : Char) : Char :=
  if 'A' ≤ c ∧ c ≤ 'Z' then Char.ofNat (c.toNat + 32)
  else if 0xC0 ≤ c.toNat ∧ c.toNat ≤ 0xDE ∧ c.toNat ≠ 0xD7 then Char.ofNat (c.toNat + 32)
  else if c.toNat = 0x212A then 'k'
  else c

/-- Python's `str.lower()` (characters lowered pointwise). -/
def pyLower (s : String) : String :=
  String.mk (s.toList.map pyLowerChar)

/-- Python's per-character `c.isupper()`, modelled for ASCII and the Latin-1
uppercase letters; uppercase letters of other scripts are not modelled and
count as non-upper.  Feeds only `caps_ratio`. -/
def pyIsUpper (c : Char) : Bool :=
  decide (('A' ≤ c ∧ c ≤ 'Z') ∨
          (0xC0 ≤ c.toNat ∧ c.toNat ≤ 0xDE ∧ c.toNat ≠ 0xD7))

/-- Python's slice `s[:n]` (by code point). -/
def pyTake (s : String) (n : Nat) : String :=
  String.mk (s.toList.take n)

/-- `re.sub(r'[^\d]', '', s)`: keep only the digit characters. -/
def digitsOnly (s : String) : String :=
  String.mk (s.toList.filter Char.isDigit)

/-- Read a digit string as a number (`int`, with the empty string giving the
`or '0'` default of the source). -/
def digitsToNat (l : List Char) : Nat :=
  l.foldl (fun n c => n * 10 + (c.toNat - 48)) 0

/-- `int(re.sub(r'[^\d]', '', s) or '0')`: strip non-digits, default `0`. -/
def pyIntOrZero (s : String) : Nat :=
  digitsToNat (s.toList.filter Char.isDigit)

/-- Scan for the first match of the pattern `https?://([^/]+)` and return the
captured host (the characters after `://` up to the next `/`). -/
def domAux : List Char → Option String
  | [] => none
  | c :: cs =>
    if List.isPrefixOf "https://".toList (c :: cs) then
      let h := ((c :: cs).drop 8).takeWhile (fun ch => ch ≠ '/')
      if h.isEmpty then domAux cs else some (String.mk h)
    else if List.isPrefixOf "http://".toList (c :: cs) then
      let h := ((c :: cs).drop 7).takeWhile (fun ch => ch ≠ '/')
      if h.isEmpty then domAux cs else some (String.mk h)
    else
      domAux cs

/-- `re.findall(r'https?://([^/]+)', href)` taking `matches[0]` when any. -/
def extractDomain (href : String) : Option String :=
  domAux href.toList

/-- The fixed bilingual spam keyword list of `extract_features`. -/
def spamKeywords : List String :=
  ["grátis", "gratis", "gratuito", "free",
   "clique", "click", "urgente", "urgent",
   "desconto", "promoção", "oferta", "ganhe",
   "parabéns", "congratulations", "premio", "prize"]

/-- `TwoPassSpamDetector.extract_features(body, subject)`. -/
def extract_features (eb : EmailBody) (subject : String) : FeatureRecord :=
  let text := eb.text
  let url_count := eb.anchors.length
  let domains := eb.anchors.filterMap extractDomain
  let unique_domains := domains.dedup.length
  let img_count := eb.imgs.length
  let tracking_pixels := eb.imgs.countP (fun img =>
    decide (pyIntOrZero (img.width.getD "0") ≤ 1 ∧
            pyIntOrZero (img.height.getD "0") ≤ 1))
  let html_length := eb.raw.length
  let text_length := text.length
  let html_text_ratio : Rat := mkRat html_length (max text_length 1)
  let text_lower := pyLower text
  let spam_keyword_count := spamKeywords.countP (fun kw => strHasSub text_lower kw)
  let caps_count := text.toList.countP pyIsUpper
  let caps_ratio : Rat := mkRat caps_count (max text_length 1)
  let exclamation_count := text.toList.count '!'
  { url_count := url_count
    img_count := img_count
    unique_domains := unique_domains
    tracking_pixel_count := tracking_pixels
    html_text_ratio := html_text_ratio
    spam_keyword_count := spam_keyword_count
    caps_ratio := caps_ratio
    exclamation_count := exclamation_count
    subject := subject
    text_preview := pyTake text 200 }

/-- Rule 1 condition: subject (lowercased) contains `"report domain:"` or
`"dmarc"`. -/
def cond1 (f : FeatureRecord) : Bool :=
  strHasSub (pyLower f.subject) "report domain:" || strHasSub (pyLower f.subject) "dmarc"

/-- Rule 2 condition: `url_count > 15 and tracking_pixel_count > 2`. -/
def cond2 (f : FeatureRecord) : Bool :=
  decide (f.url_count > 15 ∧ f.tracking_pixel_count > 2)

/-- Rule 3 condition: `url_count > 10 and img_count > 5 and
spam_keyword_count > 3`. -/
def cond3 (f : FeatureRecord) : Bool :=
  decide (f.url_count > 10 ∧ f.img_count > 5 ∧ f.spam_keyword_count > 3)

/-- Rule 4 condition: `url_count == 0 and spam_keyword_count == 0 and
tracking_pixel_count == 0`. -/
def cond4 (f : FeatureRecord) : Bool :=
  decide (f.url_count = 0 ∧ f.spam_keyword_count = 0 ∧ f.tracking_pixel_count = 0)

/-- Rule 5 condition: `html_text_ratio > 20 and url_count > 5`. -/
def cond5 (f : FeatureRecord) : Bool :=
  decide (f.html_text_ratio > 20 ∧ f.url_count > 5)

/-- Rule 6 condition: subject (lowercased) contains `"currículo"`,
`"curriculo"` or `"cv "`. -/
def cond6 (f : FeatureRecord) : Bool :=
  strHasSub (pyLower f.subject) "currículo" || strHasSub (pyLower f.subject) "curriculo" ||
    strHasSub (pyLower f.subject) "cv "

/-- Rule 7 condition: `caps_ratio > 0.4 and len(text_preview) > 50`. -/
def cond7 (f : FeatureRecord) : Bool :=
  decide (f.caps_ratio > mkRat 4 10 ∧ f.text_preview.length > 50)

/-- `TwoPassSpamDetector.apply_fast_rules(features)`.  The source returns the
triple `(is_spam, confidence, reason)` where `is_spam` and `confidence` are
`None` together exactly when no rule fires; the two optional slots are
modelled as one `Option (Bool × Rat)`. -/
def apply_fast_rules (features : FeatureRecord) : Option (Bool × Rat) × String :=
  if cond1 features then
    (some (false, 1), "DMARC report (regra)")
  else if cond2 features then
    (some (true, mkRat 95 100), "Alto volume URLs + tracking (regra)")
  else if cond3 features then
    (some (true, mkRat 92 100), "Marketing agressivo (regra)")
  else if cond4 features then
    (some (false, mkRat 90 100), "Email limpo sem sinais spam (regra)")
  else if cond5 features then
    (some (true, mkRat 88 100), "HTML pesado + URLs (regra)")
  else if cond6 features then
    (some (true, mkRat 85 100), "Currículo não solicitado (regra)")
  else if cond7 features then
    (some (true, mkRat 87 100), "CAPS excessivo (regra)")
  else
    (none, "Ambíguo - requer análise GPT")

/-- The seven rule conditions of the ordered rule table, in priority order. -/
def ruleConds (f : FeatureRecord) : List Bool :=
  [cond1 f, cond2 f, cond3 f, cond4 f, cond5 f, cond6 f, cond7 f]

/-- The outputs of the seven rules in order; index 7 (or anything past the
table) is the inconclusive result. -/
def ruleOutcome : Nat → Option (Bool × Rat) × String
  | 0 => (some (false, 1), "DMARC report (regra)")
  | 1 => (some (true, mkRat 95 100), "Alto volume URLs + tracking (regra)")
  | 2 => (some (true, mkRat 92 100), "Marketing agressivo (regra)")
  | 3 => (some (false, mkRat 90 100), "Email limpo sem sinais spam (regra)")
  | 4 => (some (true, mkRat 88 100), "HTML pesado + URLs (regra)")
  | 5 => (some (true, mkRat 85 100), "Currículo não solicitado (regra)")
  | 6 => (some (true, mkRat 87 100), "CAPS excessivo (regra)")
  | _ => (none, "Ambíguo - requer análise GPT")

/-- Index of the first `true` in a list of booleans. -/
def firstTrue : List Bool → Option Nat
  | [] => none
  | b :: bs => if b then some 0 else (firstTrue bs).map (· + 1)

/-- The result dict of a classification call.  `category` is `none` when the
dict has no `category` key (the fast-rule path); `features` is `none` until
`detect` attaches the feature record. -/
structure Verdict where
  is_spam : Bool
  confidence : Rat
  reason : String
  category : Option String
  method : String
  features : Option FeatureRecord
deriving DecidableEq

/-- `TwoPassSpamDetector.detect_with_gpt(body, features, system_prompt)`.
The prompt strings built from `body` and `features` are consumed only by the
injected client, which is modelled as an arbitrary function of the call's
inputs, so their rendering is not reproduced here. -/
def detect_with_gpt (openai_client : Option ClientFun) (body : String)
    (features : FeatureRecord) (system_prompt : String) : Verdict :=
  match openai_client with
  | none =>
    { is_spam := false
      confidence := mkRat 5 10
      reason := "OpenAI não disponível"
      category := some "unknown"
      method := "fallback"
      features := none }
  | some client =>
    match client body features system_prompt with
    | Except.ok result =>
      { is_spam := result.is_spam
        confidence := result.confidence
        reason := result.reason
        category := some result.category
        method := "gpt"
        features := none }
    | Except.error e =>
      { is_spam := false
        confidence := mkRat 5 10
        reason := "Erro GPT: " ++ e
        category := some "error"
        method := "error"
        features := none }

/-- The running counters `self.stats` of one detector instance. -/
structure RunningStats where
  total : Nat
  fast_rules : Nat
  gpt_calls : Nat
deriving DecidableEq

/-- The `TwoPassSpamDetector` instance state: the injected client and the
mutable counters. -/
structure TwoPassSpamDetector where
  openai_client : Option ClientFun
  stats : RunningStats

/-- `TwoPassSpamDetector.__init__(openai_client)`. -/
def newDetector (client : Option ClientFun) : TwoPassSpamDetector :=
  { openai_client := client, stats := { total := 0, fast_rules := 0, gpt_calls := 0 } }

/-- The default system prompt used by `detect` when none is supplied. -/
def defaultSystemPrompt : String :=
  "Você é um especialista em detecção de spam.\nAnalise o email e retorne JSON: \x7b\"is_spam\": bool, \"confidence\": 0-1, \"reason\": \"explicação\", \"category\": \"tipo\"\x7d"

/-- `if not system_prompt: system_prompt = <default>` — Python truthiness:
both `None` and the empty string are replaced by the default prompt. -/
def resolvePrompt : Option String → String
  | none => defaultSystemPrompt
  | some s => if s = "" then defaultSystemPrompt else s

/-- `TwoPassSpamDetector.detect(body, subject, system_prompt)`, with the
mutation of `self.stats` made explicit: returns the verdict and the updated
instance state. -/
def detect (self : TwoPassSpamDetector) (eb : EmailBody) (subject : String)
    (system_prompt : Option String) : Verdict × TwoPassSpamDetector :=
  let stats1 : RunningStats := { self.stats with total := self.stats.total + 1 }
  let features := extract_features eb subject
  match apply_fast_rules features with
  | (some (b, c), reason) =>
    ({ is_spam := b
       confidence := c
       reason := reason
       category := none
       method := "fast_rule"
       features := some features },
     { self with stats := { stats1 with fast_rules := stats1.fast_rules + 1 } })
  | (none, _) =>
    let sp := resolvePrompt system_prompt
    let g := detect_with_gpt self.openai_client eb.raw features sp
    ({ g with features := some features },
     { self with stats := { stats1 with gpt_calls := stats1.gpt_calls + 1 } })

/-- Fold a sequence of `detect` calls (body parse, subject, system prompt)
over one detector instance, keeping the final state. -/
def runDetects (d : TwoPassSpamDetector)
    (calls : List (EmailBody × String × Option String)) : TwoPassSpamDetector :=
  calls.foldl (fun acc c => (detect acc c.1 c.2.1 c.2.2).2) d

/-- Python's `round` to an integer: round half to even. -/
def roundHalfEven (q : Rat) : Int :=
  let f : Int := q.floor
  let r : Rat := q - (f : Rat)
  if r < (1 : Rat) / 2 then f
  else if r > (1 : Rat) / 2 then f + 1
  else if f % 2 = 0 then f else f + 1

/-- Python's `round(x, 1)`. -/
def roundTo1 (q : Rat) : Rat :=
  ((roundHalfEven (q * 10) : Int) : Rat) / 10

/-- Render a rational with four decimal places, as Python's `f"{x:.4f}"`. -/
def fmt4 (q : Rat) : String :=
  let n : Int := roundHalfEven (q * 10000)
  let a := n.natAbs
  let whole := a / 10000
  let fracStr := toString (a % 10000)
  let pad := String.mk (List.replicate (4 - fracStr.length) '0')
  (if n < 0 then "-" else "") ++ toString whole ++ "." ++ pad ++ fracStr

/-- The dict returned by `get_stats`.  Each key that is present only in one
of the two branches of the source is an `Option` field (`none` = the key is
absent from the returned dict). -/
structure StatsReport where
  total : Nat
  fast_rules : Option Nat
  gpt_calls : Option Nat
  fast_rules_pct : Option Rat
  gpt_calls_pct : Option Rat
  estimated_savings : Option Rat
  estimated_savings_pct : Option Rat
  cost_without_optimization : Option String
  cost_with_two_pass : Option String
  savings : Option String
deriving DecidableEq

/-- `TwoPassSpamDetector.get_stats()`. -/
def get_stats (self : TwoPassSpamDetector) : StatsReport :=
  let total := self.stats.total
  if total = 0 then
    { total := 0
      fast_rules := none
      gpt_calls := none
      fast_rules_pct := some 0
      gpt_calls_pct := some 0
      estimated_savings := some 0
      estimated_savings_pct := none
      cost_without_optimization := none
      cost_with_two_pass := none
      savings := none }
  else
    let fast_pct : Rat := ((self.stats.fast_rules : Rat) / (total : Rat)) * 100
    let gpt_pct : Rat := ((self.stats.gpt_calls : Rat) / (total : Rat)) * 100
    let cost_with_gpt : Rat := (total : Rat) * ((3 : Rat) / 10000)
    let cost_two_pass : Rat := (self.stats.gpt_calls : Rat) * ((3 : Rat) / 10000)
    let savings_pct : Rat :=
      if cost_with_gpt > 0 then ((cost_with_gpt - cost_two_pass) / cost_with_gpt) * 100
      else 0
    { total := total
      fast_rules := some self.stats.fast_rules
      gpt_calls := some self.stats.gpt_calls
      fast_rules_pct := some (roundTo1 fast_pct)
      gpt_calls_pct := some (roundTo1 gpt_pct)
      estimated_savings := none
      estimated_savings_pct := some (roundTo1 savings_pct)
      cost_without_optimization := some ("$" ++ fmt4 cost_with_gpt)
      cost_with_two_pass := some ("$" ++ fmt4 cost_two_pass)
      savings := some ("$" ++ fmt4 (cost_with_gpt - cost_two_pass)) }

theorem isPrefixOf_self_char (l : List Char) : List.isPrefixOf l l = true := by
  induction l with
  | nil => rfl
  | cons c cs ih => simp [List.isPrefixOf, ih]

theorem hasSubAux_append (pat pre : List Char) : hasSubAux pat (pre ++ pat) = true := by
  induction pre with
  | nil =>
    cases pat with
    | nil => rfl
    | cons c cs => simp [hasSubAux, isPrefixOf_self_char]
  | cons c cs ih => simp [hasSubAux, ih]

/-- A string contains any of its own suffixes as a substring. -/
theorem strHasSub_append (a b : String) : strHasSub (a ++ b) b = true := by
  have h : (a ++ b).toList = a.toList ++ b.toList := rfl
  simp only [strHasSub, h, hasSubAux_append]

/-- One `detect` call increments `total` by one and exactly one of
`fast_rules`, `gpt_calls` by one, leaving the client untouched. -/
theorem detect_stats_step (d : TwoPassSpamDetector) (eb : EmailBody)
    (subject : String) (sp : Option String) :
    ((detect d eb subject sp).2.stats.total = d.stats.total + 1) ∧
    (((detect d eb subject sp).2.stats.fast_rules = d.stats.fast_rules + 1 ∧
      (detect d eb subject sp).2.stats.gpt_calls = d.stats.gpt_calls) ∨
     ((detect d eb subject sp).2.stats.fast_rules = d.stats.fast_rules ∧
      (detect d eb subject sp).2.stats.gpt_calls = d.stats.gpt_calls + 1)) := by
  unfold detect
  rcases h : apply_fast_rules (extract_features eb subject) with ⟨o, r⟩
  rcases o with _ | ⟨b, c⟩ <;> simp [h]

/-- Running a list of `detect` calls adds the number of calls to `total` and
to the sum `fast_rules + gpt_calls`. -/
theorem runDetects_stats (calls : List (EmailBody × String × Option String))
    (d : TwoPassSpamDetector) :
    (runDetects d calls).stats.total = d.stats.total + calls.length ∧
    (runDetects d calls).stats.fast_rules + (runDetects d calls).stats.gpt_calls
      = d.stats.fast_rules + d.stats.gpt_calls + calls.length := by
  induction calls generalizing d with
  | nil => simp [runDetects]
  | cons c cs ih =>
    rcases c with ⟨eb, subject, sp⟩
    have hstep := detect_stats_step d eb subject sp
    have hrun : runDetects d (⟨eb, subject, sp⟩ :: cs)
        = runDetects (detect d eb subject sp).2 cs := rfl
    rcases ih (detect d eb subject sp).2 with ⟨iht, ihs⟩
    rcases hstep with ⟨ht, hcase⟩
    rw [hrun]
    simp only [List.length_cons]
    constructor
    · omega
    · rcases hcase with ⟨hf, hg⟩ | ⟨hf, hg⟩ <;> omega

/-- A parsed body whose features fire no fast rule: three links, the spam
keyword `"free"` in the text, no images, plain text. -/
def ambiguousBody : EmailBody :=
  { raw := "free offer hello"
    anchors := ["http://a.com", "http://b.com", "http://c.com"]
    imgs := []
    text := "free offer hello" }

/-- The BeautifulSoup parse of the empty body `""`: no anchor or `<img>`
tags, empty extracted text. -/
def emptyParse : EmailBody :=
  { raw := "", anchors := [], imgs := [], text := "" }

/-- A feature record satisfying both rule 1's and rule 2's conditions. -/
def overlapRecord : FeatureRecord :=
  { url_count := 16, img_count := 0, unique_domains := 1,
    tracking_pixel_count := 3, html_text_ratio := 1, spam_keyword_count := 0,
    caps_ratio := 0, exclamation_count := 0, subject := "dmarc",
    text_preview := "" }

/-- A concrete feature record for instantiating `detect_with_gpt` claims. -/
def plainRecord : FeatureRecord :=
  { url_count := 3, img_count := 0, unique_domains := 3,
    tracking_pixel_count := 0, html_text_ratio := 1, spam_keyword_count := 1,
    caps_ratio := 0, exclamation_count := 0, subject := "hello",
    text_preview := "free offer hello" }

/-- A client whose call always raises with message `"boom"`. -/
def raisingClient : ClientFun :=
  fun _ _ _ => Except.error "boom"

/-- A parsed model response with an out-of-range confidence. -/
def overconfidentJson : GptJson :=
  { is_spam := true, confidence := mkRat 3 2, reason := "suspicious template",
    category := "marketing" }

/-- A client whose call always succeeds with `overconfidentJson`. -/
def okClient : ClientFun :=
  fun _ _ _ => Except.ok overconfidentJson

/-- C1: for every body, feature record and system prompt, if the injected
completion client raises when called, or returns content that is not valid
JSON, then `detect_with_gpt` does not raise: it returns the fail-open verdict
`is_spam = false`, `confidence = 0.5`, `method = "error"`, with a reason
containing the error text. -/
theorem C1_gpt_error_fail_open (client : ClientFun) (body : String)
    (features : FeatureRecord) (system_prompt msg : String)
    (h : client body features system_prompt = Except.error msg) :
    detect_with_gpt (some client) body features system_prompt =
      { is_spam := false, confidence := (1 : Rat) / 2,
        reason := "Erro GPT: " ++ msg, category := some "error",
        method := "error", features := none } ∧
    strHasSub (detect_with_gpt (some client) body features system_prompt).reason
      msg = true := by
  have hv : detect_with_gpt (some client) body features system_prompt =
      { is_spam := false, confidence := mkRat 5 10, reason := "Erro GPT: " ++ msg,
        category := some "error", method := "error", features := none } := by
    simp only [detect_with_gpt, h]
  have hq : (mkRat 5 10 : Rat) = 1 / 2 := by norm_num [Rat.mkRat_eq_div]
  constructor
  · rw [hv, hq]
  · rw [hv]
    exact strHasSub_append "Erro GPT: " msg

theorem C1_gpt_error_fail_open_witness :
    raisingClient "body" plainRecord "prompt" = Except.error "boom" ∧
    (detect_with_gpt (some raisingClient) "body" plainRecord "prompt" =
      { is_spam := false, confidence := (1 : Rat) / 2,
        reason := "Erro GPT: " ++ "boom", category := some "error",
        method := "error", features := none } ∧
     strHasSub (detect_with_gpt (some raisingClient) "body" plainRecord "prompt").reason
       "boom" = true) :=
  ⟨rfl, C1_gpt_error_fail_open raisingClient "body" plainRecord "prompt" "boom" rfl⟩

/-- C2: for every body and subject whose extracted features satisfy no fast
rule, `detect` on an orchestrator constructed with a null client returns the
fail-open verdict `is_spam = false`, `confidence = 0.5`, `method =
"fallback"`, without raising. -/
theorem C2_fallback_no_client (eb : EmailBody) (subject : String)
    (sp : Option String)
    (h : (apply_fast_rules (extract_features eb subject)).1 = none) :
    (detect (newDetector none) eb subject sp).1 =
      { is_spam := false, confidence := (1 : Rat) / 2,
        reason := "OpenAI não disponível", category := some "unknown",
        method := "fallback", features := some (extract_features eb subject) } := by
  have hq : ((1 : Rat) / 2) = mkRat 5 10 := by norm_num [Rat.mkRat_eq_div]
  rw [hq]
  rcases happ : apply_fast_rules (extract_features eb subject) with ⟨o, r⟩
  rcases o with _ | p
  · simp only [detect, happ, newDetector, detect_with_gpt]
  · rw [happ] at h
    simp at h

theorem C2_fallback_no_client_witness :
    (apply_fast_rules (extract_features ambiguousBody "hello")).1 = none ∧
    (detect (newDetector none) ambiguousBody "hello" none).1 =
      { is_spam := false, confidence := (1 : Rat) / 2,
        reason := "OpenAI não disponível", category := some "unknown",
        method := "fallback",
        features := some (extract_features ambiguousBody "hello") } :=
  ⟨rfl, C2_fallback_no_client ambiguousBody "hello" none rfl⟩

/-- C3: a feature record whose subject contains `"report domain:"` or
`"dmarc"` case-insensitively makes the fast-rule evaluator return not-spam
with confidence 1.0 regardless of every other feature value, and `detect` on
such a subject returns `is_spam = false`, `confidence = 1.0`,
`method = "fast_rule"`. -/
theorem C3_dmarc_exemption :
    (∀ f : FeatureRecord, cond1 f = true →
       apply_fast_rules f = (some (false, 1), "DMARC report (regra)")) ∧
    (∀ (d : TwoPassSpamDetector) (eb : EmailBody) (subject : String)
       (sp : Option String),
       (strHasSub (pyLower subject) "report domain:" ||
        strHasSub (pyLower subject) "dmarc") = true →
       (detect d eb subject sp).1.is_spam = false ∧
       (detect d eb subject sp).1.confidence = 1 ∧
       (detect d eb subject sp).1.method = "fast_rule") := by
  have hrule : ∀ f : FeatureRecord, cond1 f = true →
      apply_fast_rules f = (some (false, 1), "DMARC report (regra)") := by
    intro f hf
    unfold apply_fast_rules
    rw [hf]
    simp
  refine ⟨hrule, ?_⟩
  intro d eb subject sp hf
  have hc : cond1 (extract_features eb subject) = true := hf
  simp [detect, hrule _ hc]

theorem C3_dmarc_exemption_witness :
    (cond1 overlapRecord = true ∧ cond2 overlapRecord = true ∧
     apply_fast_rules overlapRecord = (some (false, 1), "DMARC report (regra)")) ∧
    ((strHasSub (pyLower "Report Domain: example.com Submitter: google.com")
        "report domain:" ||
      strHasSub (pyLower "Report Domain: example.com Submitter: google.com")
        "dmarc") = true ∧
     (detect (newDetector none) ambiguousBody
        "Report Domain: example.com Submitter: google.com" none).1.is_spam = false ∧
     (detect (newDetector none) ambiguousBody
        "Report Domain: example.com Submitter: google.com" none).1.confidence = 1 ∧
     (detect (newDetector none) ambiguousBody
        "Report Domain: example.com Submitter: google.com" none).1.method
       = "fast_rule") := by
  have h2 := C3_dmarc_exemption.2 (newDetector none) ambiguousBody
    "Report Domain: example.com Submitter: google.com" none (by decide)
  exact ⟨⟨by decide, by decide, C3_dmarc_exemption.1 overlapRecord (by decide)⟩,
    ⟨by decide, h2.1, h2.2.1, h2.2.2⟩⟩

/-- C4: after any sequence of N completed `detect` calls on one freshly
constructed orchestrator, `total = N` and `total = fast_rules + gpt_calls`;
moreover each single call increments `total` by one and exactly one of the
two branch counters, so all counters are monotonically non-decreasing. -/
theorem C4_stats_invariant (client : Option ClientFun)
    (calls : List (EmailBody × String × Option String)) :
    ((runDetects (newDetector client) calls).stats.total = calls.length ∧
     (runDetects (newDetector client) calls).stats.total =
       (runDetects (newDetector client) calls).stats.fast_rules +
       (runDetects (newDetector client) calls).stats.gpt_calls) ∧
    (∀ (d : TwoPassSpamDetector) (eb : EmailBody) (subject : String)
       (sp : Option String),
       d.stats.total ≤ (detect d eb subject sp).2.stats.total ∧
       d.stats.fast_rules ≤ (detect d eb subject sp).2.stats.fast_rules ∧
       d.stats.gpt_calls ≤ (detect d eb subject sp).2.stats.gpt_calls ∧
       (detect d eb subject sp).2.stats.total = d.stats.total + 1 ∧
       (((detect d eb subject sp).2.stats.fast_rules = d.stats.fast_rules + 1 ∧
         (detect d eb subject sp).2.stats.gpt_calls = d.stats.gpt_calls) ∨
        ((detect d eb subject sp).2.stats.fast_rules = d.stats.fast_rules ∧
         (detect d eb subject sp).2.stats.gpt_calls = d.stats.gpt_calls + 1))) := by
  constructor
  · rcases runDetects_stats calls (newDetector client) with ⟨h1, h2⟩
    simp only [newDetector] at h1 h2 ⊢
    constructor
    · omega
    · omega
  · intro d eb subject sp
    rcases detect_stats_step d eb subject sp with ⟨ht, hc⟩
    rcases hc with ⟨hf, hg⟩ | ⟨hf, hg⟩
    · exact ⟨by omega, by omega, by omega, ht, Or.inl ⟨hf, hg⟩⟩
    · exact ⟨by omega, by omega, by omega, ht, Or.inr ⟨hf, hg⟩⟩

/-- C5 (counterexample): the seven fast-rule conditions are not mutually
exclusive — `overlapRecord` (subject `"dmarc"`, 16 URLs, 3 tracking pixels)
satisfies both rule 1's and rule 2's conditions, so "at most one condition
holds" fails at this concrete record. -/
theorem C5_exclusivity_counterexample :
    ¬ ((ruleConds overlapRecord).count true ≤ 1) := by decide

/-- C5 (amended): the seven conditions of the table can hold simultaneously;
the ordered evaluator resolves any overlap by priority — for every feature
record, `apply_fast_rules` returns the output of the first condition in
table order that holds, and the inconclusive result when none does. -/
theorem C5_first_match_resolution (f : FeatureRecord) :
    apply_fast_rules f = ruleOutcome ((firstTrue (ruleConds f)).getD 7) := by
  cases h1 : cond1 f <;> cases h2 : cond2 f <;> cases h3 : cond3 f <;>
    cases h4 : cond4 f <;> cases h5 : cond5 f <;> cases h6 : cond6 f <;>
      cases h7 : cond7 f <;>
        simp [apply_fast_rules, ruleConds, ruleOutcome, firstTrue,
          h1, h2, h3, h4, h5, h6, h7]

/-- C6 (counterexample): on a fresh orchestrator (`total = 0`) the stats
dict has no `cost_without_optimization`, `cost_with_two_pass`, `savings` or
`estimated_savings_pct` keys at all, refuting that every documented
percentage and cost field is present and equal to zero. -/
theorem C6_zero_total_counterexample :
    (get_stats (newDetector none)).cost_without_optimization = none ∧
    (get_stats (newDetector none)).cost_with_two_pass = none ∧
    (get_stats (newDetector none)).savings = none ∧
    (get_stats (newDetector none)).estimated_savings_pct = none :=
  ⟨rfl, rfl, rfl, rfl⟩

/-- C6 (amended): `get_stats` on a fresh orchestrator returns without error
the reduced snapshot `total = 0` with the emitted percentage fields
(`fast_rules_pct`, `gpt_calls_pct`) and `estimated_savings` present and
zero, while the counter breakdown, `estimated_savings_pct` and the three
cost fields are absent from the snapshot rather than zero. -/
theorem C6_zero_total_snapshot (client : Option ClientFun) :
    get_stats (newDetector client) =
      { total := 0, fast_rules := none, gpt_calls := none,
        fast_rules_pct := some 0, gpt_calls_pct := some 0,
        estimated_savings := some 0, estimated_savings_pct := none,
        cost_without_optimization := none, cost_with_two_pass := none,
        savings := none } := rfl

/-- C7: when the fast pass is inconclusive and the completion client
succeeds with parseable JSON, `detect` returns exactly the parsed object
tagged `method = "gpt"`: `is_spam`, `confidence`, `reason` and `category`
are passed through verbatim, with no clamping of an out-of-range
confidence. -/
theorem C7_gpt_verbatim_passthrough (client : ClientFun) (st : RunningStats)
    (eb : EmailBody) (subject : String) (sp : Option String) (j : GptJson)
    (hfast : (apply_fast_rules (extract_features eb subject)).1 = none)
    (hclient : client eb.raw (extract_features eb subject) (resolvePrompt sp)
      = Except.ok j) :
    (detect { openai_client := some client, stats := st } eb subject sp).1 =
      { is_spam := j.is_spam, confidence := j.confidence, reason := j.reason,
        category := some j.category, method := "gpt",
        features := some (extract_features eb subject) } := by
  rcases happ : apply_fast_rules (extract_features eb subject) with ⟨o, r⟩
  rcases o with _ | p
  · simp only [detect, happ, detect_with_gpt, hclient]
  · rw [happ] at hfast
    simp at hfast

theorem C7_gpt_verbatim_passthrough_witness :
    (apply_fast_rules (extract_features ambiguousBody "hello")).1 = none ∧
    okClient ambiguousBody.raw (extract_features ambiguousBody "hello")
      (resolvePrompt none) = Except.ok overconfidentJson ∧
    overconfidentJson.confidence > 1 ∧
    (detect { openai_client := some okClient, stats := ⟨0, 0, 0⟩ }
      ambiguousBody "hello" none).1 =
      { is_spam := overconfidentJson.is_spam,
        confidence := overconfidentJson.confidence,
        reason := overconfidentJson.reason,
        category := some overconfidentJson.category, method := "gpt",
        features := some (extract_features ambiguousBody "hello") } :=
  ⟨rfl, rfl, by decide,
   C7_gpt_verbatim_passthrough okClient ⟨0, 0, 0⟩ ambiguousBody "hello" none
     overconfidentJson rfl rfl⟩

/-- The tracking-pixel test of the claim: width and height attribute values,
digits only, defaulting to 0 when empty or absent, both at most 1. -/
def isTrackingPixel (img : ImgTag) : Bool :=
  decide (pyIntOrZero (img.width.getD "0") ≤ 1 ∧
          pyIntOrZero (img.height.getD "0") ≤ 1)

/-- C8: for every parsed body, an `<img>` counts as a tracking pixel exactly
when both dimension attributes, after stripping non-digits and defaulting to
0 (also when the attribute is absent), are each ≤ 1; images with missing or
zero dimensions are counted, and `tracking_pixel_count ≤ img_count`. -/
theorem C8_tracking_pixel_rule (eb : EmailBody) (subject : String) :
    (extract_features eb subject).tracking_pixel_count
      = (eb.imgs.filter (fun img => isTrackingPixel img)).length ∧
    isTrackingPixel { width := none, height := none } = true ∧
    isTrackingPixel { width := some "0", height := some "0" } = true ∧
    (extract_features eb subject).tracking_pixel_count
      ≤ (extract_features eb subject).img_count := by
  refine ⟨?_, by decide, by decide, ?_⟩
  · show eb.imgs.countP _ = _
    rw [List.countP_eq_length_filter]
    rfl
  · show eb.imgs.countP _ ≤ eb.imgs.length
    exact List.countP_le_length _

/-- C9: `spam_keyword_count` is the number of distinct entries of the fixed
16-entry keyword list occurring case-insensitively as substrings of the
extracted plaintext (a keyword counts once however often it occurs), hence
between 0 and 16; on the uppercase accented text `"OFERTA GRÁTIS, CLIQUE
AQUI"` the count is 3 (`oferta`, `grátis`, `clique`), as in the source's
`str.lower()`-based matching. -/
theorem C9_keyword_count (eb : EmailBody) (subject : String) :
    spamKeywords.length = 16 ∧ spamKeywords.Nodup ∧
    (extract_features eb subject).spam_keyword_count
      = (spamKeywords.toFinset.filter
          (fun kw => strHasSub (pyLower eb.text) kw = true)).card ∧
    (extract_features eb subject).spam_keyword_count ≤ 16 ∧
    (extract_features
      { raw := "OFERTA GRÁTIS, CLIQUE AQUI", anchors := [], imgs := [],
        text := "OFERTA GRÁTIS, CLIQUE AQUI" } "").spam_keyword_count = 3 := by
  have hnd : spamKeywords.Nodup := by decide
  refine ⟨rfl, hnd, ?_, ?_, by decide⟩
  · show spamKeywords.countP _ = _
    rw [List.countP_eq_length_filter, ← List.toFinset_filter,
      List.toFinset_card_of_nodup (hnd.filter _)]
  · calc spamKeywords.countP (fun kw => strHasSub (pyLower eb.text) kw)
        ≤ spamKeywords.length := List.countP_le_length _
    _ = 16 := rfl

/-- C10: for the empty body and every subject, `detect` resolves on the fast
path with `is_spam = false` and `method = "fast_rule"` and never reaches the
completion client: the extracted record has `url_count = 0`,
`spam_keyword_count = 0` and `tracking_pixel_count = 0`, so rule 1 or rule 4
fires (before any spam rule), the fast-rule counter is incremented and the
GPT counter is not. -/
theorem C10_empty_body_fast_path (d : TwoPassSpamDetector) (subject : String)
    (sp : Option String) :
    (extract_features emptyParse subject).url_count = 0 ∧
    (extract_features emptyParse subject).spam_keyword_count = 0 ∧
    (extract_features emptyParse subject).tracking_pixel_count = 0 ∧
    (detect d emptyParse subject sp).1.is_spam = false ∧
    (detect d emptyParse subject sp).1.method = "fast_rule" ∧
    ((detect d emptyParse subject sp).1.reason = "DMARC report (regra)" ∨
     (detect d emptyParse subject sp).1.reason
       = "Email limpo sem sinais spam (regra)") ∧
    (detect d emptyParse subject sp).2.stats.gpt_calls = d.stats.gpt_calls ∧
    (detect d emptyParse subject sp).2.stats.fast_rules
      = d.stats.fast_rules + 1 := by
  have hfeat : extract_features emptyParse subject =
      { url_count := 0, img_count := 0, unique_domains := 0,
        tracking_pixel_count := 0, html_text_ratio := mkRat 0 1,
        spam_keyword_count := 0, caps_ratio := mkRat 0 1,
        exclamation_count := 0, subject := subject, text_preview := "" } := rfl
  cases h1 : cond1 (extract_features emptyParse subject) with
  | true =>
    have happ : apply_fast_rules (extract_features emptyParse subject)
        = (some (false, 1), "DMARC report (regra)") := by
      simp [apply_fast_rules, h1]
    refine ⟨rfl, rfl, rfl, ?_, ?_, ?_, ?_, ?_⟩ <;>
      simp [detect, happ]
  | false =>
    have h2 : cond2 (extract_features emptyParse subject) = false := by
      rw [hfeat]; rfl
    have h3 : cond3 (extract_features emptyParse subject) = false := by
      rw [hfeat]; rfl
    have h4 : cond4 (extract_features emptyParse subject) = true := by
      rw [hfeat]; rfl
    have happ : apply_fast_rules (extract_features emptyParse subject)
        = (some (false, mkRat 90 100), "Email limpo sem sinais spam (regra)") := by
      simp [apply_fast_rules, h1, h2, h3, h4]
    refine ⟨rfl, rfl, rfl, ?_, ?_, ?_, ?_, ?_⟩ <;>
      simp [detect, happ]
